import Mathlib

/-!
Verification of the camera/interaction core of the pano-sphere-viewer
repository.  JavaScript numbers are embedded as rationals (`ℚ`); DOM and
WebGL collaborators are abstracted away; asynchronous continuations are
modelled as explicit state transformers.  Definitions are translated from
`src/js/PanoSphereViewer.js`, `src/js/PanoSphereViewer.public.js` and
`src/js/PanoSphereViewer.events.js`; utilities of the repository that are
not part of the provided sources (`PSVUtils`, `_stopAll`,
`_reverseAutorotate`, the numeric constants) are modelled from the spec and
marked as such.
-/

namespace PanoSphere

/-- The floor of a rational, in executable form (equal to `Int.floor`,
see `jsFloor_eq`). -/
def jsFloor (q : ℚ) : ℤ := q.num / (q.den : ℤ)

/-- JavaScript `Math.round`: rounds half toward positive infinity. -/
def jsRound (q : ℚ) : ℤ := jsFloor (q + 1/2)

/-- Modelled from the spec: `PSVUtils.bound(x, min, max)` (the utility file is
not part of the provided sources) clamps `x` into `[lo, hi]`. -/
def jsBound (x lo hi : ℚ) : ℚ := max lo (min hi x)

/-- JavaScript `Number.isInteger` on the rational embedding. -/
def isJsInteger (q : ℚ) : Bool := q.den = 1

/-- Modelled from the spec: the angle-wrapping part of `PSVUtils.parseAngle`
(not part of the provided sources): reduces an angle into `[0, m)` where `m`
stands for `2π`. -/
def jsWrap (m x : ℚ) : ℚ := x - m * (jsFloor (x / m) : ℚ)

/-- Environment constants of the viewer.  `MOVE_THRESHOLD`, `DBLCLICK_DELAY`,
`INERTIA_WINDOW`, `ANGLE_THRESHOLD` and `DEFAULTS.cache_texture` are declared
on `PanoSphereViewer` in a file not part of the provided sources, so they are
kept abstract here; `twoPi`/`halfPi` are rational stand-ins for the real
constants `2π`/`π/2`; `hFovOf` abstracts the trigonometric derivation of the
horizontal FOV from the vertical FOV and the aspect ratio (line 606 of
`PanoSphereViewer.public.js`). -/
structure PSVConsts where
  twoPi : ℚ
  halfPi : ℚ
  MOVE_THRESHOLD : ℚ
  DBLCLICK_DELAY : ℚ
  INERTIA_WINDOW : ℚ
  ANGLE_THRESHOLD : ℚ
  CACHE_TEXTURE_DEFAULT : ℚ
  hFovOf : ℚ → ℚ → ℚ

/-- A spherical position (`PanoSphereViewer.Position`). -/
structure PSVPosition where
  longitude : ℚ
  latitude : ℚ
deriving DecidableEq, Repr

/-- A boundary side reported by `applyRanges`. -/
inductive Side
  | left | right | top | bottom
deriving DecidableEq, Repr

/-- Observable events emitted by the viewer. -/
inductive PSVEvt
  | positionUpdated (p : PSVPosition)
  | zoomUpdated (lvl : ℤ)
  | sideReached (s : Side)
  | autorotateEvt (enabled : Bool)
  | gyroscopeUpdated (enabled : Bool)
deriving DecidableEq, Repr

/-- The configuration fields of the core (subset of `this.config`). -/
structure ViewerConfig where
  min_fov : ℚ
  max_fov : ℚ
  anim_speed : ℚ
  anim_lat : ℚ
  move_inertia : Bool
  longitude_range : Option (ℚ × ℚ)
  latitude_range : Option (ℚ × ℚ)
deriving DecidableEq, Repr

/-- One `(timestamp, x, y)` sample of `prop.mouse_history`. -/
abbrev MouseSample := ℚ × ℚ × ℚ

/-- The mutable state of the viewer: the fields of `this.prop`
(lines 371-416 of `PanoSphereViewer.js`) read or written by the verified
operations, together with the mutable parts of `this.config` and the log
of emitted events; purely presentational fields (loader, caches, pano
metadata) are elided. -/
structure ViewerState where
  config : ViewerConfig
  position : PSVPosition
  zoom_lvl : ℤ
  vFov : ℚ
  hFov : ℚ
  aspect : ℚ
  needsUpdate : Bool
  moving : Bool
  zooming : Bool
  autorotate_cb : Bool
  orientation_cb : Bool
  animation_promise : Bool
  loading_promise : Bool
  start_timeout : Bool
  isCubemap : Bool
  panorama : Option String
  start_mouse_x : ℚ
  start_mouse_y : ℚ
  mouse_x : ℚ
  mouse_y : ℚ
  mouse_history : List MouseSample
  gyro_alpha_offset : ℚ
  pinch_dist : ℚ
  events : List PSVEvt
deriving DecidableEq, Repr

/-- A pointer event (`MouseEvent`/`Touch`): client coordinates, the current
clock (`Date.now()`), and whether the target is inside the `.psv-hud`
element (used by the guard of `_stopMove`). -/
structure MouseEvt where
  clientX : ℚ
  clientY : ℚ
  now : ℚ
  onHud : Bool
deriving DecidableEq, Repr

/-- Modelled from the spec: `cleanPosition` (not part of the provided
sources) normalizes a spherical position: longitude wrapped into `[0, 2π)`,
latitude clamped into `[-π/2, π/2]`. -/
def cleanPosition (c : PSVConsts) (p : PSVPosition) : PSVPosition :=
  { longitude := jsWrap c.twoPi p.longitude
    latitude := jsBound p.latitude (-c.halfPi) c.halfPi }

/-- Modelled from the spec: `applyRanges` (not part of the provided sources)
clamps the position against the configured ranges and returns the crossed
sides; a longitude range with `min > max` crosses the `0/2π` seam and is
satisfied on both sides of the seam. -/
def applyRanges (cfg : ViewerConfig) (p : PSVPosition) :
    PSVPosition × List Side :=
  let lonPart : ℚ × List Side :=
    match cfg.longitude_range with
    | none => (p.longitude, [])
    | some (lo, hi) =>
      if lo ≤ hi then
        if p.longitude < lo then (lo, [Side.left])
        else if p.longitude > hi then (hi, [Side.right])
        else (p.longitude, [])
      else
        if p.longitude ≥ lo ∨ p.longitude ≤ hi then (p.longitude, [])
        else if p.longitude - hi ≤ lo - p.longitude then (hi, [Side.right])
        else (lo, [Side.left])
  let latPart : ℚ × List Side :=
    match cfg.latitude_range with
    | none => (p.latitude, [])
    | some (lo, hi) =>
      if p.latitude < lo then (lo, [Side.bottom])
      else if p.latitude > hi then (hi, [Side.top])
      else (p.latitude, [])
  (⟨lonPart.1, latPart.1⟩, lonPart.2 ++ latPart.2)

/-- The zoom level stored by `zoom` (line 604 of
`PanoSphereViewer.public.js`): `PSVUtils.bound(Math.round(level), 0, 100)`. -/
def zoomLevelOf (level : ℚ) : ℤ := max 0 (min 100 (jsRound level))

/-- The vertical FOV derived from a zoom level (line 605 of
`PanoSphereViewer.public.js`):
`max_fov + (zoom_lvl / 100) * (min_fov - max_fov)`. -/
def vFovOf (minFov maxFov : ℚ) (lvl : ℤ) : ℚ :=
  maxFov + ((lvl : ℚ) / 100) * (minFov - maxFov)

/-- Translation of `PanoSphereViewer.prototype.zoom` (lines 603-616 of
`PanoSphereViewer.public.js`). -/
def zoom (c : PSVConsts) (s : ViewerState) (level : ℚ) : ViewerState :=
  let lvl := zoomLevelOf level
  let v := vFovOf s.config.min_fov s.config.max_fov lvl
  { s with
    zoom_lvl := lvl
    vFov := v
    hFov := c.hFovOf v s.aspect
    needsUpdate := true
    events := s.events ++ [PSVEvt.zoomUpdated lvl] }

/-- Modelled from the spec: `_reverseAutorotate` (not part of the provided
sources) reverses the direction of the automatic rotation. -/
def reverseAutorotate (s : ViewerState) : ViewerState :=
  { s with config := { s.config with anim_speed := -s.config.anim_speed } }

/-- The `_side-reached` handler registered in `_bindEvents` (lines 36-42 of
`PanoSphereViewer.events.js`): while autorotate is enabled, a `left` or
`right` boundary reverses the rotation; `top`/`bottom` do nothing. -/
def sideReachedHandler (s : ViewerState) (side : Side) : ViewerState :=
  let s1 := { s with events := s.events ++ [PSVEvt.sideReached side] }
  if s1.autorotate_cb ∧ (side = Side.left ∨ side = Side.right) then
    reverseAutorotate s1
  else s1

/-- Translation of `PanoSphereViewer.prototype.rotate` (lines 513-537 of
`PanoSphereViewer.public.js`): cleans the position, applies the ranges
(triggering `_side-reached` for each crossed side), stores the result, sets
the dirty flag and emits `position-updated`. -/
def rotate (c : PSVConsts) (s : ViewerState) (p : PSVPosition) : ViewerState :=
  let p1 := cleanPosition c p
  let (p2, sides) := applyRanges s.config p1
  let s1 := sides.foldl sideReachedHandler s
  { s1 with
    position := p2
    needsUpdate := true
    events := s1.events ++ [PSVEvt.positionUpdated p2] }

/-- The before-render callback returned by `_getOrientationUpdate`
(lines 359-372 of `PanoSphereViewer.public.js`).  `g` is the spherical
coordinate obtained from the device-orientation camera direction via
`vector3ToSphericalCoords`; the callback assigns it to
`prop.position.longitude`/`latitude` directly and sets the dirty flag. -/
def orientationUpdate (s : ViewerState) (g : PSVPosition) : ViewerState :=
  { s with position := g, needsUpdate := true }

/-- The before-render callback returned by `_getAutorotateUpdate`
(lines 265-278 of `PanoSphereViewer.public.js`).  `last` is the closure
variable holding the previous timestamp (`none` on the first tick); the
returned pair carries the updated state and the new value of `last`. -/
def autorotateUpdate (c : PSVConsts) (s : ViewerState) (last : Option ℚ)
    (timestamp : ℚ) : ViewerState × ℚ :=
  let elapsed := match last with
    | none => 0
    | some l => timestamp - l
  (rotate c s
    { longitude := s.position.longitude + s.config.anim_speed * elapsed / 1000
      latitude := s.position.latitude -
        (s.position.latitude - s.config.anim_lat) / 200 }, timestamp)

/-- Translation of `PanoSphereViewer.prototype.stopAutorotate` (lines 284-296 of
`PanoSphereViewer.public.js`): clears the pending start timeout, and if the
rotation is enabled unregisters the callback and emits `autorotate(false)`. -/
def stopAutorotate (s : ViewerState) : ViewerState :=
  let s1 := { s with start_timeout := false }
  if s1.autorotate_cb then
    { s1 with
      autorotate_cb := false
      events := s1.events ++ [PSVEvt.autorotateEvt false] }
  else s1

/-- Translation of `PanoSphereViewer.prototype.stopAnimation` (lines 591-596 of
`PanoSphereViewer.public.js`): cancels the current animation promise. -/
def stopAnimation (s : ViewerState) : ViewerState :=
  if s.animation_promise then { s with animation_promise := false } else s

/-- Translation of `PanoSphereViewer.prototype.stopGyroscopeControl` (lines 378-388 of
`PanoSphereViewer.public.js`). -/
def stopGyroscopeControl (s : ViewerState) : ViewerState :=
  if s.orientation_cb then
    { s with
      orientation_cb := false
      events := s.events ++ [PSVEvt.gyroscopeUpdated false] }
  else s

/-- Modelled from the spec: `_stopAll` (not part of the provided sources)
stops every active navigation driver before a new one starts — the automatic
rotation, the running animation, the gyroscope control and the manual
drag/pinch interaction ("Any state may be interrupted by a programmatic
call (`rotate`, `animate`, `startAutorotate`, `startGyroscopeControl`),
which immediately stops the conflicting driver"). -/
def stopAll (s : ViewerState) : ViewerState :=
  let s1 := stopGyroscopeControl (stopAnimation (stopAutorotate s))
  { s1 with moving := false, zooming := false }

/-- Translation of `PanoSphereViewer.prototype.startAutorotate` (lines 245-258 of
`PanoSphereViewer.public.js`). -/
def startAutorotate (s : ViewerState) : ViewerState :=
  let s1 := stopAll s
  { s1 with
    autorotate_cb := true
    events := s1.events ++ [PSVEvt.autorotateEvt true] }

/-- The success continuation of `startGyroscopeControl` (lines 318-342 of
`PanoSphereViewer.public.js`); `g` is the alpha offset computed from the
current camera direction. -/
def startGyroscopeControl (s : ViewerState) (g : ℚ) : ViewerState :=
  let s1 := stopAll s
  { s1 with
    orientation_cb := true
    gyro_alpha_offset := g
    events := s1.events ++ [PSVEvt.gyroscopeUpdated true] }

/-- The JavaScript array access `mouse_history[0][i]` used by the pruning
loop of `_logMouseMove`: component `i` of the *first* sample (`0` the
timestamp, `1` the x coordinate, `2` the y coordinate, `undefined`
otherwise, `undefined` as well on an empty array). -/
def sampleField (h : List MouseSample) (i : ℕ) : Option ℚ :=
  match h with
  | [] => none
  | e :: _ =>
    match i with
    | 0 => some e.1
    | 1 => some e.2.1
    | 2 => some e.2.2
    | _ => none

/-- The first loop condition of `_logMouseMove` (line 521 of
`PanoSphereViewer.events.js`): `mouse_history[0][i] < now - INERTIA_WINDOW`
(`undefined < x` is false in JavaScript). -/
def logCondStale (c : PSVConsts) (now : ℚ) (v : Option ℚ) : Bool :=
  match v with
  | some q => q < now - c.INERTIA_WINDOW
  | none => false

/-- The second loop condition of `_logMouseMove` (line 524 of
`PanoSphereViewer.events.js`):
`previous && mouse_history[0][i] - previous > INERTIA_WINDOW / 10`
(`previous` equal to `null`, `undefined` or `0` is falsy; a subtraction
involving `undefined` is `NaN`, and `NaN > x` is false). -/
def logCondPause (c : PSVConsts) (prev v : Option ℚ) : Bool :=
  match prev, v with
  | some p, some q => p ≠ 0 && q - p > c.INERTIA_WINDOW / 10
  | _, _ => false

/-- The pruning loop of `_logMouseMove` (lines 518-533 of
`PanoSphereViewer.events.js`), faithfully including its transposed array
access `mouse_history[0][i]`.  The loop state is the history, the index `i`
and the `previous` variable; `splice(i, 1)` is `eraseIdx i`, `splice(0, i)`
is `drop i`.  The recursion is bounded by an explicit fuel, which the
invariant proof shows is never exhausted for the fuel chosen by
`logMouseMove`. -/
def logLoop (c : PSVConsts) (now : ℚ) :
    ℕ → List MouseSample → ℕ → Option ℚ → List MouseSample
  | 0, h, _, _ => h
  | fuel + 1, h, i, prev =>
    if i < h.length then
      let v := sampleField h i
      if logCondStale c now v then
        logLoop c now fuel (h.eraseIdx i) i prev
      else if logCondPause c prev v then
        logLoop c now fuel (h.drop i) 0 (sampleField (h.drop i) 0)
      else
        logLoop c now fuel h (i + 1) (sampleField h (i + 1))
    else h

/-- Translation of `PanoSphereViewer.prototype._logMouseMove` (lines 514-534 of
`PanoSphereViewer.events.js`): pushes `(now, x, y)` and runs the pruning
loop. -/
def logMouseMove (c : PSVConsts) (now x y : ℚ) (h : List MouseSample) :
    List MouseSample :=
  let h1 := h ++ [(now, x, y)]
  logLoop c now (2 * h1.length + 1) h1 0 none

/-- Translation of `PanoSphereViewer.prototype._startMove` (lines 239-250 of
`PanoSphereViewer.events.js`): stops autorotate and the running animation,
records the start coordinates, raises the moving flag, clears the mouse
history and logs the initial sample. -/
def startMove (c : PSVConsts) (s : ViewerState) (evt : MouseEvt) :
    ViewerState :=
  let s1 := stopAnimation (stopAutorotate s)
  { s1 with
    mouse_x := evt.clientX
    mouse_y := evt.clientY
    start_mouse_x := evt.clientX
    start_mouse_y := evt.clientY
    moving := true
    zooming := false
    mouse_history := logMouseMove c evt.now evt.clientX evt.clientY [] }

/-- Translation of `PanoSphereViewer.prototype._startZoom` (lines 257-266 of
`PanoSphereViewer.events.js`). -/
def startZoom (s : ViewerState) (dist : ℚ) : ViewerState :=
  { s with pinch_dist := dist, moving := false, zooming := true }

/-- Translation of `PanoSphereViewer.prototype._stopMove` (lines 274-298 of
`PanoSphereViewer.events.js`).  The `_click` dispatch of the click branch is
modelled separately (`clickAt`); `_stopMoveInertia` registers the inertia
animation promise while the moving flag stays raised until the animation
settles (its tween parameters are asynchronous and elided). -/
def stopMove (c : PSVConsts) (s : ViewerState) (evt : MouseEvt) :
    ViewerState :=
  if !evt.onHud then s
  else
    let s1 :=
      if s.moving then
        let s2 :=
          if |evt.clientX - s.start_mouse_x| < c.MOVE_THRESHOLD ∧
             |evt.clientY - s.start_mouse_y| < c.MOVE_THRESHOLD then
            { s with moving := false }
          else if s.config.move_inertia ∧ !s.orientation_cb then
            { s with
              mouse_history :=
                logMouseMove c evt.now evt.clientX evt.clientY s.mouse_history
              animation_promise := true }
          else
            { s with moving := false }
        { s2 with mouse_history := [] }
      else s
    { s1 with zooming := false }

/-- Outcome of a call to `animate`. -/
inductive AnimateOutcome
  | resolvedNow
  | started (target : PSVPosition)
deriving DecidableEq, Repr

/-- Translation of `PanoSphereViewer.prototype.animate` (lines 545-586 of
`PanoSphereViewer.public.js`): stops every driver, cleans the target, and
either rotates immediately (falsy duration, or both angular differences
below `ANGLE_THRESHOLD`) returning a resolved promise, or applies the
ranges (triggering `_side-reached`) and registers the navigation animation
promise (the asynchronous tween itself is elided). -/
def animate (c : PSVConsts) (s : ViewerState) (p : PSVPosition)
    (duration : Option ℚ) : ViewerState × AnimateOutcome :=
  let s1 := stopAll s
  let p1 := cleanPosition c p
  if duration.getD 0 = 0 ∨
     (|p1.longitude - s1.position.longitude| < c.ANGLE_THRESHOLD ∧
      |p1.latitude - s1.position.latitude| < c.ANGLE_THRESHOLD) then
    (rotate c s1 p1, AnimateOutcome.resolvedNow)
  else
    let (p2, sides) := applyRanges s1.config p1
    let s2 := sides.foldl sideReachedHandler s1
    ({ s2 with animation_promise := true }, AnimateOutcome.started p2)

/-- A thrown `PSVError`. -/
structure PSVError where
  message : String
deriving DecidableEq, Repr

/-- Translation of `PanoSphereViewer.prototype.setPanorama` (lines 175-239 of
`PanoSphereViewer.public.js`): rejects a concurrent load and a transition on
a cubemap before touching any state; otherwise cleans the target position
and stops the drivers when a position is given, stores the new panorama path
and registers the loading promise (the asynchronous texture load and its
continuations are elided). -/
def setPanorama (c : PSVConsts) (s : ViewerState) (path : String)
    (position : Option PSVPosition) (transition : Bool) :
    Except PSVError ViewerState :=
  if s.loading_promise then
    Except.error ⟨"Loading already in progress"⟩
  else if transition ∧ s.isCubemap then
    Except.error ⟨"Transition is not available with cubemap."⟩
  else
    let s1 := match position with
      | some _ => stopAll s
      | none => s
    Except.ok { s1 with panorama := some path, loading_promise := true }

/-- The state left behind by a `setPanorama` call: unchanged when the call
throws. -/
def runSetPanorama (c : PSVConsts) (s : ViewerState) (path : String)
    (position : Option PSVPosition) (transition : Bool) : ViewerState :=
  match setPanorama c s path position transition with
  | Except.ok s1 => s1
  | Except.error _ => s

/-- The data built by `_click` (lines 339-359 of
`PanoSphereViewer.events.js`); the viewer-local and texture coordinates are
derived by converters outside the provided sources and are summarized by the
resolved spherical position. -/
structure ClickData where
  client_x : ℚ
  client_y : ℚ
  pos : PSVPosition
deriving DecidableEq, Repr

/-- The double-click bookkeeping of `this.prop`: `dblclick_timeout` and
`dblclick_data`, always set and cleared together; the timeout is modelled by
remembering the arming instant. -/
structure ClickState where
  pending : Option (ℚ × ClickData)
deriving DecidableEq, Repr

/-- A `click` or `dblclick` event. -/
inductive ClickEvt
  | click (d : ClickData)
  | dblclick (d : ClickData)
deriving DecidableEq, Repr

/-- The expiry of the `DBLCLICK_DELAY` timeout armed at line 371 of
`PanoSphereViewer.events.js`: before an event at time `now` is processed,
a pending timeout whose delay has elapsed has fired and cleared
`dblclick_timeout`/`dblclick_data`. -/
def tickTimers (c : PSVConsts) (now : ℚ) (st : ClickState) : ClickState :=
  match st.pending with
  | some (t0, _) => if t0 + c.DBLCLICK_DELAY ≤ now then ⟨none⟩ else st
  | none => st

/-- Translation of `PanoSphereViewer.prototype._click` (lines 336-393 of
`PanoSphereViewer.events.js`), parameterized by the ray-intersection result
`intersect` (computed by `viewerCoordsToVector3`, outside the provided
sources).  With no pending double-click it emits `click` and arms the
timeout; with one pending it emits `dblclick` with the *first* click's data
when both coordinates lie within `MOVE_THRESHOLD`, emits nothing otherwise,
and clears the pending state in either case. -/
def clickHandler (c : PSVConsts) (now : ℚ) (intersect : Option PSVPosition)
    (cx cy : ℚ) (st : ClickState) : ClickState × List ClickEvt :=
  match intersect with
  | none => (st, [])
  | some pos =>
    let data : ClickData := { client_x := cx, client_y := cy, pos := pos }
    match st.pending with
    | none => (⟨some (now, data)⟩, [ClickEvt.click data])
    | some (_, d0) =>
      if |d0.client_x - cx| < c.MOVE_THRESHOLD ∧
         |d0.client_y - cy| < c.MOVE_THRESHOLD then
        (⟨none⟩, [ClickEvt.dblclick d0])
      else (⟨none⟩, [])

/-- A pointer-up classified as a click, processed at time `now`: the timers
fire first, then `_click` runs. -/
def clickAt (c : PSVConsts) (now : ℚ) (intersect : Option PSVPosition)
    (cx cy : ℚ) (st : ClickState) : ClickState × List ClickEvt :=
  clickHandler c now intersect cx cy (tickTimers c now st)

/-- The configuration fields checked by the constructor's correction block
(lines 113-173 of `PanoSphereViewer.js`), before correction. -/
structure RawConfig where
  longitude_range : Option (List ℚ)
  latitude_range : Option (List ℚ)
  tilt_up_max : Option ℚ
  tilt_down_max : Option ℚ
  min_fov : ℚ
  max_fov : ℚ
  default_fov : Option ℚ
  cache_texture : ℚ
deriving DecidableEq, Repr

/-- The constructor's configuration correction block (lines 113-173 of
`PanoSphereViewer.js`): a range without exactly two elements becomes null,
an inverted latitude range is reordered, deprecated tilt bounds migrate to a
latitude range, inverted FOV bounds are swapped, an invalid cache size is
reset to the default, the FOV bounds are clamped into `[1, 179]` and the
default FOV is resolved (midpoint when absent, clamped into the FOV bounds
otherwise).  Every correction only logs a warning; nothing throws. -/
def configFix (c : PSVConsts) (cfg : RawConfig) : RawConfig :=
  let lonR :=
    match cfg.longitude_range with
    | some l => if l.length ≠ 2 then none else some l
    | none => none
  let latR :=
    match cfg.latitude_range with
    | some l =>
      match l with
      | [a, b] => if a > b then some [b, a] else some [a, b]
      | _ => none
    | none =>
      if cfg.tilt_up_max.isSome ∨ cfg.tilt_down_max.isSome then
        some [(match cfg.tilt_down_max with
               | some d => d - c.halfPi / 2
               | none => -c.halfPi),
              (match cfg.tilt_up_max with
               | some u => u + c.halfPi / 2
               | none => c.halfPi)]
      else none
  let (minF0, maxF0) :=
    if cfg.max_fov < cfg.min_fov then (cfg.max_fov, cfg.min_fov)
    else (cfg.min_fov, cfg.max_fov)
  let cache :=
    if cfg.cache_texture ≠ 0 ∧
       (!isJsInteger cfg.cache_texture ∨ cfg.cache_texture < 0) then
      c.CACHE_TEXTURE_DEFAULT
    else cfg.cache_texture
  let minF := jsBound minF0 1 179
  let maxF := jsBound maxF0 1 179
  let dfltF :=
    match cfg.default_fov with
    | none => maxF / 2 + minF / 2
    | some f => jsBound f minF maxF
  { cfg with
    longitude_range := lonR
    latitude_range := latR
    min_fov := minF
    max_fov := maxF
    default_fov := some dfltF
    cache_texture := cache }

/-- The intermediate zoom level of the constructor (line 443 of
`PanoSphereViewer.js`):
`Math.round((default_fov - min_fov) / (max_fov - min_fov) * 100)`. -/
def initialZoomTemp (cfg : RawConfig) : ℤ :=
  jsRound ((cfg.default_fov.getD 0 - cfg.min_fov) /
    (cfg.max_fov - cfg.min_fov) * 100)

/-- The initial zoom level actually applied by the constructor (line 444 of
`PanoSphereViewer.js`): `this.zoom(tempZoom - 2 * (tempZoom - 50))`,
including the round-and-clamp performed by `zoom`. -/
def initialZoomLevel (cfg : RawConfig) : ℤ :=
  let t := initialZoomTemp cfg
  zoomLevelOf ((t - 2 * (t - 50) : ℤ) : ℚ)

/-- The externally triggerable operations that affect the navigation-driver
flags, each mapped to its source entry point. -/
inductive DriverOp
  | startAutorotateOp
  | stopAutorotateOp
  | startGyroscopeOp (g : ℚ)
  | stopGyroscopeOp
  | animateOp (p : PSVPosition) (d : Option ℚ)
  | stopAnimationOp
  | startMoveOp (evt : MouseEvt)
  | stopMoveOp (evt : MouseEvt)
  | startZoomOp (dist : ℚ)
  | rotateOp (p : PSVPosition)
  | zoomOp (l : ℚ)
  | setPanoramaOp (path : String) (pos : Option PSVPosition) (tr : Bool)
  | orientationTickOp (g : PSVPosition)
deriving Repr

/-- Dispatch of a `DriverOp` to the corresponding source function. -/
def applyOp (c : PSVConsts) (op : DriverOp) (s : ViewerState) : ViewerState :=
  match op with
  | DriverOp.startAutorotateOp => startAutorotate s
  | DriverOp.stopAutorotateOp => stopAutorotate s
  | DriverOp.startGyroscopeOp g => startGyroscopeControl s g
  | DriverOp.stopGyroscopeOp => stopGyroscopeControl s
  | DriverOp.animateOp p d => (animate c s p d).1
  | DriverOp.stopAnimationOp => stopAnimation s
  | DriverOp.startMoveOp evt => startMove c s evt
  | DriverOp.stopMoveOp evt => stopMove c s evt
  | DriverOp.startZoomOp dist => startZoom s dist
  | DriverOp.rotateOp p => rotate c s p
  | DriverOp.zoomOp l => zoom c s l
  | DriverOp.setPanoramaOp path pos tr => runSetPanorama c s path pos tr
  | DriverOp.orientationTickOp g => orientationUpdate s g

/-- Iterated application of operations. -/
def runOps (c : PSVConsts) (ops : List DriverOp) (s : ViewerState) :
    ViewerState :=
  ops.foldl (fun t op => applyOp c op t) s

/-- Indicator count. -/
def b2n (b : Bool) : ℕ := if b then 1 else 0

/-- The number of simultaneously active navigation drivers exactly as the
claim enumerates them: manual drag (`moving` without an animation), inertia
(`moving` with the inertia animation registered), autorotate, gyroscope, and
programmatic animation (animation without `moving`) — the drag and inertia
cases sum to `moving`. -/
def claimDriverCount (s : ViewerState) : ℕ :=
  b2n s.autorotate_cb + b2n s.orientation_cb + b2n s.moving +
    b2n (s.animation_promise && !s.moving)

/-- The exclusivity that actually holds: a manual drag during active
gyroscope control does not count as a second camera owner (the drag then
steers the gyroscope alpha offset, not the position). -/
def amendedDriverCount (s : ViewerState) : ℕ :=
  b2n s.autorotate_cb + b2n s.orientation_cb +
    b2n (s.moving && !s.orientation_cb) +
    b2n (s.animation_promise && !s.moving)

/-- The driver-exclusivity invariant of reachable states. -/
def ExclusiveInv (s : ViewerState) : Prop :=
  amendedDriverCount s ≤ 1 ∧ ¬(s.orientation_cb ∧ s.animation_promise)

instance (s : ViewerState) : Decidable (ExclusiveInv s) := by
  unfold ExclusiveInv; infer_instance

/-- The initial `this.prop` of the constructor (lines 371-416 of
`PanoSphereViewer.js`): no driver active, nothing loading, empty history. -/
def initState (cfg : ViewerConfig) : ViewerState :=
  { config := cfg
    position := ⟨0, 0⟩
    zoom_lvl := 0
    vFov := 0
    hFov := 0
    aspect := 0
    needsUpdate := true
    moving := false
    zooming := false
    autorotate_cb := false
    orientation_cb := false
    animation_promise := false
    loading_promise := false
    start_timeout := false
    isCubemap := false
    panorama := none
    start_mouse_x := 0
    start_mouse_y := 0
    mouse_x := 0
    mouse_y := 0
    mouse_history := []
    gyro_alpha_offset := 0
    pinch_dist := 0
    events := [] }

/-- The five driver-related boolean flags of a state, as one tuple. -/
def driverFlags (s : ViewerState) : Bool × Bool × Bool × Bool × Bool :=
  (s.autorotate_cb, s.orientation_cb, s.moving, s.animation_promise, s.zooming)

/-- Concrete constants used for concrete evaluations: the documented values
`MOVE_THRESHOLD = 4`, `DBLCLICK_DELAY = 300`, `INERTIA_WINDOW = 300` and a
rational stand-in for the trigonometric environment. -/
def demoConsts : PSVConsts :=
  { twoPi := 628 / 100
    halfPi := 157 / 100
    MOVE_THRESHOLD := 4
    DBLCLICK_DELAY := 300
    INERTIA_WINDOW := 300
    ANGLE_THRESHOLD := 3 / 1000
    CACHE_TEXTURE_DEFAULT := 0
    hFovOf := fun v _ => v }

/-- A concrete configuration with `min_fov = 30`, `max_fov = 90` and a
latitude range of `[-1/2, 1/2]`. -/
def demoConfig : ViewerConfig :=
  { min_fov := 30
    max_fov := 90
    anim_speed := 2
    anim_lat := 0
    move_inertia := true
    longitude_range := none
    latitude_range := some (-(1 / 2), 1 / 2) }

/-- The freshly constructed viewer state over `demoConfig`. -/
def demoState : ViewerState := initState demoConfig

/-- A pointer event on the HUD at the origin, clock at 1000. -/
def demoEvt : MouseEvt := { clientX := 0, clientY := 0, now := 1000, onHud := true }

example : (zoom demoConsts demoState 150).zoom_lvl = 100 := by
  with_unfolding_all rfl
example : (zoom demoConsts demoState (-10)).zoom_lvl = 0 := by
  with_unfolding_all rfl
example : (zoom demoConsts demoState 50).vFov = 60 := by
  with_unfolding_all rfl
example : (rotate demoConsts demoState ⟨0, 1⟩).position.latitude = 1 / 2 := by
  with_unfolding_all rfl
example : (orientationUpdate demoState ⟨0, 1⟩).position.latitude = 1 := by
  with_unfolding_all rfl
example :
    claimDriverCount
      (runOps demoConsts
        [DriverOp.startGyroscopeOp 0, DriverOp.startMoveOp demoEvt]
        demoState) = 2 := by with_unfolding_all rfl

/-! ## Helper lemmas -/

theorem jsFloor_eq (q : ℚ) : jsFloor q = ⌊q⌋ := Rat.floor_def.symm

theorem jsRound_le (q : ℚ) : (jsRound q : ℚ) ≤ q + 1 / 2 := by
  rw [jsRound, jsFloor_eq]
  exact_mod_cast Int.floor_le (q + 1 / 2)

theorem lt_jsRound (q : ℚ) : q - 1 / 2 < (jsRound q : ℚ) := by
  rw [jsRound, jsFloor_eq]
  have := Int.lt_floor_add_one (q + 1 / 2)
  push_cast at this ⊢
  linarith

theorem driverFlags_fields (s : ViewerState) (a g m an z : Bool)
    (h : driverFlags s = (a, g, m, an, z)) :
    s.autorotate_cb = a ∧ s.orientation_cb = g ∧ s.moving = m ∧
      s.animation_promise = an ∧ s.zooming = z := by
  unfold driverFlags at h
  simp only [Prod.mk.injEq] at h
  exact ⟨h.1, h.2.1, h.2.2.1, h.2.2.2.1, h.2.2.2.2⟩

theorem stopAutorotate_flags (s : ViewerState) :
    driverFlags (stopAutorotate s) =
      (false, s.orientation_cb, s.moving, s.animation_promise, s.zooming) := by
  simp only [driverFlags, stopAutorotate]
  split <;> simp_all

theorem stopAnimation_flags (s : ViewerState) :
    driverFlags (stopAnimation s) =
      (s.autorotate_cb, s.orientation_cb, s.moving, false, s.zooming) := by
  simp only [driverFlags, stopAnimation]
  split <;> simp_all

theorem stopGyroscopeControl_flags (s : ViewerState) :
    driverFlags (stopGyroscopeControl s) =
      (s.autorotate_cb, false, s.moving, s.animation_promise, s.zooming) := by
  simp only [driverFlags, stopGyroscopeControl]
  split <;> simp_all

theorem stopAutorotate_position (s : ViewerState) :
    (stopAutorotate s).position = s.position := by
  simp only [stopAutorotate]
  split <;> rfl

theorem stopAnimation_position (s : ViewerState) :
    (stopAnimation s).position = s.position := by
  simp only [stopAnimation]
  split <;> rfl

theorem stopGyroscopeControl_position (s : ViewerState) :
    (stopGyroscopeControl s).position = s.position := by
  simp only [stopGyroscopeControl]
  split <;> rfl

theorem stopAutorotate_config (s : ViewerState) :
    (stopAutorotate s).config = s.config := by
  simp only [stopAutorotate]
  split <;> rfl

theorem stopAnimation_config (s : ViewerState) :
    (stopAnimation s).config = s.config := by
  simp only [stopAnimation]
  split <;> rfl

theorem stopGyroscopeControl_config (s : ViewerState) :
    (stopGyroscopeControl s).config = s.config := by
  simp only [stopGyroscopeControl]
  split <;> rfl

theorem stopAll_position (s : ViewerState) : (stopAll s).position = s.position := by
  simp only [stopAll, stopGyroscopeControl_position, stopAnimation_position,
    stopAutorotate_position]

theorem stopAll_config (s : ViewerState) : (stopAll s).config = s.config := by
  simp only [stopAll, stopGyroscopeControl_config, stopAnimation_config,
    stopAutorotate_config]

theorem stopAll_flags (s : ViewerState) :
    driverFlags (stopAll s) = (false, false, false, false, false) := by
  have h3 := driverFlags_fields _ _ _ _ _ _
    (stopGyroscopeControl_flags (stopAnimation (stopAutorotate s)))
  have h2 := driverFlags_fields _ _ _ _ _ _
    (stopAnimation_flags (stopAutorotate s))
  have h1 := driverFlags_fields _ _ _ _ _ _ (stopAutorotate_flags s)
  simp only [driverFlags, stopAll]
  simp [h3.1, h3.2.1, h3.2.2.2.1, h2.1, h2.2.2.2.1, h1.1]

theorem sideReachedHandler_flags (s : ViewerState) (side : Side) :
    driverFlags (sideReachedHandler s side) = driverFlags s := by
  simp only [driverFlags, sideReachedHandler, reverseAutorotate]
  split <;> rfl

theorem foldl_sideReachedHandler_flags (sides : List Side) (s : ViewerState) :
    driverFlags (sides.foldl sideReachedHandler s) = driverFlags s := by
  induction sides generalizing s with
  | nil => rfl
  | cons side rest ih =>
    rw [List.foldl_cons, ih, sideReachedHandler_flags]

theorem rotate_flags (c : PSVConsts) (s : ViewerState) (p : PSVPosition) :
    driverFlags (rotate c s p) = driverFlags s := by
  unfold rotate driverFlags
  have h := foldl_sideReachedHandler_flags
    (applyRanges s.config (cleanPosition c p)).2 s
  unfold driverFlags at h
  simp only [Prod.mk.injEq] at h
  simp [h.1, h.2.1, h.2.2.1, h.2.2.2.1, h.2.2.2.2]

/-! ## Claim theorems -/

/-- C1: for every numeric input level, `zoom(level)` stores the rounded
level clamped into `[0, 100]` and derives the vertical FOV by linear
interpolation `vFov = max_fov + (level/100) * (min_fov - max_fov)`; in
particular `zoom(150)` yields stored level 100, `zoom(-10)` yields level 0,
and `zoom(50)` with `min_fov = 30` and `max_fov = 90` yields `vFov = 60`. -/
theorem zoom_clamps_and_interpolates :
    (∀ (c : PSVConsts) (s : ViewerState) (level : ℚ),
      (zoom c s level).zoom_lvl = max 0 (min 100 (jsRound level)) ∧
      0 ≤ (zoom c s level).zoom_lvl ∧ (zoom c s level).zoom_lvl ≤ 100 ∧
      (zoom c s level).vFov =
        s.config.max_fov +
          (((zoom c s level).zoom_lvl : ℚ) / 100) *
            (s.config.min_fov - s.config.max_fov)) ∧
    (zoom demoConsts demoState 150).zoom_lvl = 100 ∧
    (zoom demoConsts demoState (-10)).zoom_lvl = 0 ∧
    demoState.config.min_fov = 30 ∧ demoState.config.max_fov = 90 ∧
    (zoom demoConsts demoState 50).vFov = 60 := by
  refine ⟨fun c s level => ⟨rfl, le_max_left _ _, ?_, rfl⟩, ?_, ?_, ?_, ?_, ?_⟩
  · exact max_le (by norm_num) (min_le_left _ _)
  all_goals with_unfolding_all rfl

/-- C2 is false as stated: the gyroscope before-render callback writes the
position fields directly.  On a state whose latitude range is
`[-1/2, 1/2]`, a gyroscope reading of latitude 1 is stored verbatim —
a latitude no `rotate` call could store (`rotate` clamps it to `1/2`) —
and no `position-updated` notification is emitted. -/
theorem gyro_direct_write_cex :
    (orientationUpdate demoState ⟨0, 1⟩).position.latitude = 1 ∧
    (rotate demoConsts demoState ⟨0, 1⟩).position.latitude = 1 / 2 ∧
    demoState.config.latitude_range = some (-(1 / 2), 1 / 2) ∧
    ¬((1 : ℚ) ≤ 1 / 2) ∧
    (orientationUpdate demoState ⟨0, 1⟩).events = demoState.events := by
  refine ⟨?_, ?_, ?_, by norm_num, ?_⟩ <;> with_unfolding_all rfl

/-- C2 (amended): the camera position is written by exactly two paths:
`rotate`, which normalizes the input, applies the range constraints, sets
the dirty flag and emits `position-updated`; and the gyroscope
before-render callback, which assigns the device-derived position to the
state fields directly, setting only the dirty flag — no normalization, no
range constraint, no notification. -/
theorem position_write_paths :
    (∀ (s : ViewerState) (g : PSVPosition),
      orientationUpdate s g = { s with position := g, needsUpdate := true }) ∧
    (∀ (c : PSVConsts) (s : ViewerState) (p : PSVPosition),
      (rotate c s p).position =
        (applyRanges s.config (cleanPosition c p)).1 ∧
      (rotate c s p).needsUpdate = true ∧
      (rotate c s p).events.getLast? =
        some (PSVEvt.positionUpdated
          (applyRanges s.config (cleanPosition c p)).1)) := by
  refine ⟨fun s g => rfl, fun c s p => ⟨rfl, rfl, ?_⟩⟩
  simp only [rotate]
  exact List.getLast?_concat _

/-- C4: calling `setPanorama` while a previous call's promise is unsettled
throws a synchronous `Loading already in progress` error before any state
is modified: the resulting state is the old state unchanged. -/
theorem setPanorama_rejects_concurrent_load
    (c : PSVConsts) (s : ViewerState) (path : String)
    (position : Option PSVPosition) (transition : Bool)
    (h : s.loading_promise = true) :
    setPanorama c s path position transition =
      Except.error ⟨"Loading already in progress"⟩ ∧
    runSetPanorama c s path position transition = s := by
  constructor
  · simp [setPanorama, h]
  · simp [runSetPanorama, setPanorama, h]

/-- Witness for C4 on a concrete loading state. -/
theorem setPanorama_rejects_concurrent_load_witness :
    ({ demoState with loading_promise := true } : ViewerState).loading_promise
        = true ∧
    (setPanorama demoConsts { demoState with loading_promise := true } "pano2"
        none false = Except.error ⟨"Loading already in progress"⟩ ∧
      runSetPanorama demoConsts { demoState with loading_promise := true }
        "pano2" none false = { demoState with loading_promise := true }) :=
  ⟨rfl, setPanorama_rejects_concurrent_load demoConsts
    { demoState with loading_promise := true } "pano2" none false rfl⟩

/-- C6: while autorotate is active, every before-render tick rotates,
through `rotate`, to
`longitude + anim_speed * elapsed_seconds` and
`latitude - (latitude - anim_lat) / 200`; a `_side-reached` notification
for `left` or `right` fired while autorotate is enabled reverses the
rotation direction (negates `anim_speed`), whereas `top`/`bottom` do not,
and nothing is reversed when autorotate is disabled. -/
theorem autorotate_tick_and_reversal :
    (∀ (c : PSVConsts) (s : ViewerState) (l ts : ℚ),
      autorotateUpdate c s (some l) ts =
        (rotate c s
          { longitude :=
              s.position.longitude + s.config.anim_speed * (ts - l) / 1000
            latitude :=
              s.position.latitude -
                (s.position.latitude - s.config.anim_lat) / 200 }, ts)) ∧
    (∀ s : ViewerState,
      (sideReachedHandler { s with autorotate_cb := true }
          Side.left).config.anim_speed = -s.config.anim_speed ∧
      (sideReachedHandler { s with autorotate_cb := true }
          Side.right).config.anim_speed = -s.config.anim_speed ∧
      (sideReachedHandler { s with autorotate_cb := true }
          Side.top).config.anim_speed = s.config.anim_speed ∧
      (sideReachedHandler { s with autorotate_cb := true }
          Side.bottom).config.anim_speed = s.config.anim_speed ∧
      (sideReachedHandler { s with autorotate_cb := false }
          Side.left).config.anim_speed = s.config.anim_speed) := by
  refine ⟨fun c s l ts => rfl, fun s => ⟨?_, ?_, ?_, ?_, ?_⟩⟩ <;>
    simp [sideReachedHandler, reverseAutorotate]

/-- C10: `animate(position, duration)` with a falsy duration, or with a
(cleaned) target closer than `ANGLE_THRESHOLD` to the current position in
both coordinates, performs an immediate `rotate` to the cleaned,
range-constrained target and returns an already-resolved promise, leaving
no animation promise registered. -/
theorem animate_immediate_branch
    (c : PSVConsts) (s : ViewerState) (p : PSVPosition) (duration : Option ℚ)
    (h : duration.getD 0 = 0 ∨
      (|(cleanPosition c p).longitude - s.position.longitude| <
          c.ANGLE_THRESHOLD ∧
        |(cleanPosition c p).latitude - s.position.latitude| <
          c.ANGLE_THRESHOLD)) :
    animate c s p duration =
      (rotate c (stopAll s) (cleanPosition c p),
        AnimateOutcome.resolvedNow) ∧
    (animate c s p duration).1.animation_promise = false := by
  have hpos : (stopAll s).position = s.position := stopAll_position s
  have hc : duration.getD 0 = 0 ∨
      (|(cleanPosition c p).longitude - (stopAll s).position.longitude| <
          c.ANGLE_THRESHOLD ∧
        |(cleanPosition c p).latitude - (stopAll s).position.latitude| <
          c.ANGLE_THRESHOLD) := by rw [hpos]; exact h
  have heq : animate c s p duration =
      (rotate c (stopAll s) (cleanPosition c p),
        AnimateOutcome.resolvedNow) := by
    simp only [animate]
    rw [if_pos hc]
  refine ⟨heq, ?_⟩
  rw [heq]
  have hfl := driverFlags_fields _ _ _ _ _ _
    (rotate_flags c (stopAll s) (cleanPosition c p))
  have hsa := driverFlags_fields _ _ _ _ _ _ (stopAll_flags s)
  rw [hfl.2.2.2.1, hsa.2.2.2.1]

/-- Witness for C10: a zero duration on a concrete state. -/
theorem animate_immediate_branch_witness :
    ((some (0 : ℚ)).getD 0 = 0 ∨
      (|(cleanPosition demoConsts ⟨1, 1⟩).longitude -
          demoState.position.longitude| < demoConsts.ANGLE_THRESHOLD ∧
        |(cleanPosition demoConsts ⟨1, 1⟩).latitude -
          demoState.position.latitude| < demoConsts.ANGLE_THRESHOLD)) ∧
    (animate demoConsts demoState ⟨1, 1⟩ (some 0) =
      (rotate demoConsts (stopAll demoState)
        (cleanPosition demoConsts ⟨1, 1⟩), AnimateOutcome.resolvedNow) ∧
    (animate demoConsts demoState ⟨1, 1⟩ (some 0)).1.animation_promise =
      false) :=
  ⟨Or.inl rfl,
    animate_immediate_branch demoConsts demoState ⟨1, 1⟩ (some 0)
      (Or.inl rfl)⟩

/-- C5 is false as stated: two pointer-ups within the double-click time
window (100 < 300) but farther apart than the pixel threshold
(|0 - 100| = 100 ≥ 4) do not produce two independent `click` events — the
first produces its `click`, the second produces no event at all. -/
theorem second_click_swallowed_cex :
    (clickAt demoConsts 0 (some ⟨0, 0⟩) 0 0 ⟨none⟩).2 =
      [ClickEvt.click { client_x := 0, client_y := 0, pos := ⟨0, 0⟩ }] ∧
    (clickAt demoConsts 100 (some ⟨0, 0⟩) 100 0
        (clickAt demoConsts 0 (some ⟨0, 0⟩) 0 0 ⟨none⟩).1).2 = [] ∧
    (100 : ℚ) - 0 < demoConsts.DBLCLICK_DELAY ∧
    ¬(|(0 : ℚ) - 100| < demoConsts.MOVE_THRESHOLD) := by
  refine ⟨?_, ?_, by norm_num [demoConsts], by norm_num [demoConsts]⟩ <;>
    with_unfolding_all rfl

/-- C5 (amended): starting from an idle click state, the first pointer-up
emits exactly one `click`; a second pointer-up within the time window and
the pixel threshold emits exactly one `dblclick` carrying the first
click's data; a second pointer-up after the window expires emits an
independent `click` and no `dblclick`; but a second pointer-up within the
window yet beyond the pixel threshold emits nothing at all — only the
pending double-click state is cleared. -/
theorem click_dblclick_protocol
    (c : PSVConsts) (t1 t2 x1 y1 x2 y2 : ℚ) (p1 p2 : PSVPosition)
    (hle : t1 ≤ t2) :
    (clickAt c t1 (some p1) x1 y1 ⟨none⟩).2 =
      [ClickEvt.click { client_x := x1, client_y := y1, pos := p1 }] ∧
    (t2 < t1 + c.DBLCLICK_DELAY →
      |x1 - x2| < c.MOVE_THRESHOLD → |y1 - y2| < c.MOVE_THRESHOLD →
      (clickAt c t2 (some p2) x2 y2
          (clickAt c t1 (some p1) x1 y1 ⟨none⟩).1).2 =
        [ClickEvt.dblclick { client_x := x1, client_y := y1, pos := p1 }] ∧
      (clickAt c t2 (some p2) x2 y2
          (clickAt c t1 (some p1) x1 y1 ⟨none⟩).1).1.pending = none) ∧
    (t1 + c.DBLCLICK_DELAY ≤ t2 →
      (clickAt c t2 (some p2) x2 y2
          (clickAt c t1 (some p1) x1 y1 ⟨none⟩).1).2 =
        [ClickEvt.click { client_x := x2, client_y := y2, pos := p2 }] ∧
      (clickAt c t2 (some p2) x2 y2
          (clickAt c t1 (some p1) x1 y1 ⟨none⟩).1).1.pending =
        some (t2, { client_x := x2, client_y := y2, pos := p2 })) ∧
    (t2 < t1 + c.DBLCLICK_DELAY →
      ¬(|x1 - x2| < c.MOVE_THRESHOLD ∧ |y1 - y2| < c.MOVE_THRESHOLD) →
      (clickAt c t2 (some p2) x2 y2
          (clickAt c t1 (some p1) x1 y1 ⟨none⟩).1).2 = [] ∧
      (clickAt c t2 (some p2) x2 y2
          (clickAt c t1 (some p1) x1 y1 ⟨none⟩).1).1.pending = none) := by
  have h1 : clickAt c t1 (some p1) x1 y1 ⟨none⟩ =
      (⟨some (t1, { client_x := x1, client_y := y1, pos := p1 })⟩,
        [ClickEvt.click { client_x := x1, client_y := y1, pos := p1 }]) := rfl
  refine ⟨by rw [h1], ?_, ?_, ?_⟩
  · intro hwin hx hy
    rw [h1]
    simp only [clickAt, tickTimers]
    rw [if_neg (not_le.mpr hwin)]
    simp only [clickHandler]
    rw [if_pos ⟨hx, hy⟩]
    exact ⟨rfl, rfl⟩
  · intro hexp
    rw [h1]
    simp only [clickAt, tickTimers]
    rw [if_pos hexp]
    exact ⟨rfl, rfl⟩
  · intro hwin hfar
    rw [h1]
    simp only [clickAt, tickTimers]
    rw [if_neg (not_le.mpr hwin)]
    simp only [clickHandler]
    rw [if_neg hfar]
    exact ⟨rfl, rfl⟩

/-- Witness for C5 on concrete inputs: clicks at times 0 and 400. -/
theorem click_dblclick_protocol_witness :
    (0 : ℚ) ≤ 400 ∧
    ((clickAt demoConsts 0 (some ⟨0, 0⟩) 0 0 ⟨none⟩).2 =
      [ClickEvt.click { client_x := 0, client_y := 0, pos := ⟨0, 0⟩ }] ∧
    ((400 : ℚ) < 0 + demoConsts.DBLCLICK_DELAY →
      |(0 : ℚ) - 5| < demoConsts.MOVE_THRESHOLD →
      |(0 : ℚ) - 5| < demoConsts.MOVE_THRESHOLD →
      (clickAt demoConsts 400 (some ⟨1, 1⟩) 5 5
          (clickAt demoConsts 0 (some ⟨0, 0⟩) 0 0 ⟨none⟩).1).2 =
        [ClickEvt.dblclick { client_x := 0, client_y := 0, pos := ⟨0, 0⟩ }] ∧
      (clickAt demoConsts 400 (some ⟨1, 1⟩) 5 5
          (clickAt demoConsts 0 (some ⟨0, 0⟩) 0 0 ⟨none⟩).1).1.pending =
        none) ∧
    ((0 : ℚ) + demoConsts.DBLCLICK_DELAY ≤ 400 →
      (clickAt demoConsts 400 (some ⟨1, 1⟩) 5 5
          (clickAt demoConsts 0 (some ⟨0, 0⟩) 0 0 ⟨none⟩).1).2 =
        [ClickEvt.click { client_x := 5, client_y := 5, pos := ⟨1, 1⟩ }] ∧
      (clickAt demoConsts 400 (some ⟨1, 1⟩) 5 5
          (clickAt demoConsts 0 (some ⟨0, 0⟩) 0 0 ⟨none⟩).1).1.pending =
        some (400, { client_x := 5, client_y := 5, pos := ⟨1, 1⟩ })) ∧
    ((400 : ℚ) < 0 + demoConsts.DBLCLICK_DELAY →
      ¬(|(0 : ℚ) - 5| < demoConsts.MOVE_THRESHOLD ∧
        |(0 : ℚ) - 5| < demoConsts.MOVE_THRESHOLD) →
      (clickAt demoConsts 400 (some ⟨1, 1⟩) 5 5
          (clickAt demoConsts 0 (some ⟨0, 0⟩) 0 0 ⟨none⟩).1).2 = [] ∧
      (clickAt demoConsts 400 (some ⟨1, 1⟩) 5 5
          (clickAt demoConsts 0 (some ⟨0, 0⟩) 0 0 ⟨none⟩).1).1.pending =
        none)) :=
  ⟨by norm_num,
    click_dblclick_protocol demoConsts 0 400 0 0 5 5 ⟨0, 0⟩ ⟨1, 1⟩
      (by norm_num)⟩

theorem startAutorotate_flags (s : ViewerState) :
    driverFlags (startAutorotate s) = (true, false, false, false, false) := by
  have h := driverFlags_fields _ _ _ _ _ _ (stopAll_flags s)
  simp only [driverFlags, startAutorotate]
  simp [h.2.1, h.2.2.1, h.2.2.2.1, h.2.2.2.2]

theorem startGyroscopeControl_flags (s : ViewerState) (g : ℚ) :
    driverFlags (startGyroscopeControl s g) =
      (false, true, false, false, false) := by
  have h := driverFlags_fields _ _ _ _ _ _ (stopAll_flags s)
  simp only [driverFlags, startGyroscopeControl]
  simp [h.1, h.2.2.1, h.2.2.2.1, h.2.2.2.2]

theorem startMove_flags (c : PSVConsts) (s : ViewerState) (evt : MouseEvt) :
    driverFlags (startMove c s evt) =
      (false, s.orientation_cb, true, false, false) := by
  have h2 := driverFlags_fields _ _ _ _ _ _
    (stopAnimation_flags (stopAutorotate s))
  have h1 := driverFlags_fields _ _ _ _ _ _ (stopAutorotate_flags s)
  simp only [driverFlags, startMove]
  simp [h2.1, h2.2.1, h2.2.2.2.1, h1.1, h1.2.1]

theorem startZoom_flags (s : ViewerState) (dist : ℚ) :
    driverFlags (startZoom s dist) =
      (s.autorotate_cb, s.orientation_cb, false, s.animation_promise,
        true) := rfl

theorem orientationUpdate_flags (s : ViewerState) (g : PSVPosition) :
    driverFlags (orientationUpdate s g) = driverFlags s := rfl

theorem zoom_flags (c : PSVConsts) (s : ViewerState) (level : ℚ) :
    driverFlags (zoom c s level) = driverFlags s := rfl

theorem animate_flags (c : PSVConsts) (s : ViewerState) (p : PSVPosition)
    (d : Option ℚ) :
    driverFlags (animate c s p d).1 = (false, false, false, false, false) ∨
    driverFlags (animate c s p d).1 = (false, false, false, true, false) := by
  simp only [animate]
  split
  · left
    rw [rotate_flags, stopAll_flags]
  · right
    have h := driverFlags_fields _ _ _ _ _ _
      (foldl_sideReachedHandler_flags
        (applyRanges (stopAll s).config (cleanPosition c p)).2 (stopAll s))
    have h0 := driverFlags_fields _ _ _ _ _ _ (stopAll_flags s)
    simp only [driverFlags]
    simp [h.1, h.2.1, h.2.2.1, h.2.2.2.2, h0.1, h0.2.1, h0.2.2.1,
      h0.2.2.2.2]

theorem stopMove_flags (c : PSVConsts) (s : ViewerState) (evt : MouseEvt) :
    driverFlags (stopMove c s evt) = driverFlags s ∨
    driverFlags (stopMove c s evt) =
      (s.autorotate_cb, s.orientation_cb, false, s.animation_promise,
        false) ∨
    (driverFlags (stopMove c s evt) =
        (s.autorotate_cb, s.orientation_cb, s.moving, true, false) ∧
      s.orientation_cb = false ∧ s.moving = true) := by
  simp only [stopMove, driverFlags]
  split_ifs with h1 h2 h3 h4
  · left; rfl
  · right; left; rfl
  · right; right
    refine ⟨rfl, ?_, h2⟩
    simpa using h4.2
  · right; left; rfl
  · right; left
    simp_all

theorem runSetPanorama_flags (c : PSVConsts) (s : ViewerState) (path : String)
    (pos : Option PSVPosition) (tr : Bool) :
    driverFlags (runSetPanorama c s path pos tr) = driverFlags s ∨
    driverFlags (runSetPanorama c s path pos tr) =
      (false, false, false, false, false) := by
  simp only [runSetPanorama, setPanorama]
  split_ifs
  · left; rfl
  · left; rfl
  · cases pos with
    | none => left; rfl
    | some q =>
      right
      have h := driverFlags_fields _ _ _ _ _ _ (stopAll_flags s)
      simp only [driverFlags]
      simp [h.1, h.2.1, h.2.2.1, h.2.2.2.1, h.2.2.2.2]

theorem exclusive_of_flags (s : ViewerState) {a g m an z : Bool}
    (h : driverFlags s = (a, g, m, an, z))
    (hok : b2n a + b2n g + b2n (m && !g) + b2n (an && !m) ≤ 1 ∧
      ¬(g ∧ an)) : ExclusiveInv s := by
  obtain ⟨h1, h2, h3, h4, h5⟩ := driverFlags_fields _ _ _ _ _ _ h
  unfold ExclusiveInv amendedDriverCount
  rw [h1, h2, h3, h4]
  exact hok

theorem applyOp_preserves_exclusive (c : PSVConsts) (op : DriverOp)
    (s : ViewerState) (h : ExclusiveInv s) :
    ExclusiveInv (applyOp c op s) := by
  unfold ExclusiveInv amendedDriverCount at h
  cases op with
  | startAutorotateOp =>
    exact exclusive_of_flags _ (startAutorotate_flags s) (by decide)
  | stopAutorotateOp =>
    apply exclusive_of_flags _ (stopAutorotate_flags s)
    revert h
    generalize s.autorotate_cb = a
    generalize s.orientation_cb = g
    generalize s.moving = m
    generalize s.animation_promise = an
    revert a g m an
    decide
  | startGyroscopeOp g0 =>
    exact exclusive_of_flags _ (startGyroscopeControl_flags s g0) (by decide)
  | stopGyroscopeOp =>
    apply exclusive_of_flags _ (stopGyroscopeControl_flags s)
    revert h
    generalize s.autorotate_cb = a
    generalize s.orientation_cb = g
    generalize s.moving = m
    generalize s.animation_promise = an
    revert a g m an
    decide
  | animateOp p d =>
    rcases animate_flags c s p d with hf | hf
    · exact exclusive_of_flags _ hf (by decide)
    · exact exclusive_of_flags _ hf (by decide)
  | stopAnimationOp =>
    apply exclusive_of_flags _ (stopAnimation_flags s)
    revert h
    generalize s.autorotate_cb = a
    generalize s.orientation_cb = g
    generalize s.moving = m
    generalize s.animation_promise = an
    revert a g m an
    decide
  | startMoveOp evt =>
    apply exclusive_of_flags _ (startMove_flags c s evt)
    revert h
    generalize s.autorotate_cb = a
    generalize s.orientation_cb = g
    generalize s.moving = m
    generalize s.animation_promise = an
    revert a g m an
    decide
  | stopMoveOp evt =>
    rcases stopMove_flags c s evt with hf | hf | hf
    · apply exclusive_of_flags _ hf
      revert h
      generalize s.autorotate_cb = a
      generalize s.orientation_cb = g
      generalize s.moving = m
      generalize s.animation_promise = an
      revert a g m an
      decide
    · apply exclusive_of_flags _ hf
      revert h
      generalize s.autorotate_cb = a
      generalize s.orientation_cb = g
      generalize s.moving = m
      generalize s.animation_promise = an
      revert a g m an
      decide
    · obtain ⟨hf, hg, hm⟩ := hf
      apply exclusive_of_flags _ hf
      revert h hg hm
      generalize s.autorotate_cb = a
      generalize s.orientation_cb = g
      generalize s.moving = m
      generalize s.animation_promise = an
      revert a g m an
      decide
  | startZoomOp dist =>
    apply exclusive_of_flags _ (startZoom_flags s dist)
    revert h
    generalize s.autorotate_cb = a
    generalize s.orientation_cb = g
    generalize s.moving = m
    generalize s.animation_promise = an
    revert a g m an
    decide
  | rotateOp p =>
    apply exclusive_of_flags _ (rotate_flags c s p)
    revert h
    generalize s.autorotate_cb = a
    generalize s.orientation_cb = g
    generalize s.moving = m
    generalize s.animation_promise = an
    revert a g m an
    decide
  | zoomOp l =>
    apply exclusive_of_flags _ (zoom_flags c s l)
    revert h
    generalize s.autorotate_cb = a
    generalize s.orientation_cb = g
    generalize s.moving = m
    generalize s.animation_promise = an
    revert a g m an
    decide
  | setPanoramaOp path pos tr =>
    rcases runSetPanorama_flags c s path pos tr with hf | hf
    · apply exclusive_of_flags _ hf
      revert h
      generalize s.autorotate_cb = a
      generalize s.orientation_cb = g
      generalize s.moving = m
      generalize s.animation_promise = an
      revert a g m an
      decide
    · exact exclusive_of_flags _ hf (by decide)
  | orientationTickOp g0 =>
    apply exclusive_of_flags _ (orientationUpdate_flags s g0)
    revert h
    generalize s.autorotate_cb = a
    generalize s.orientation_cb = g
    generalize s.moving = m
    generalize s.animation_promise = an
    revert a g m an
    decide

/-- C3 is false as stated: from the freshly constructed state, starting the
gyroscope control and then starting a manual drag (pointer-down) leaves the
gyroscope callback registered while the moving flag is raised — two of the
claim's navigation drivers are active at once (`_startMove` stops
autorotate and the animation but not the gyroscope). -/
theorem drag_with_gyroscope_cex :
    (runOps demoConsts
      [DriverOp.startGyroscopeOp 0, DriverOp.startMoveOp demoEvt]
      demoState).orientation_cb = true ∧
    (runOps demoConsts
      [DriverOp.startGyroscopeOp 0, DriverOp.startMoveOp demoEvt]
      demoState).moving = true ∧
    claimDriverCount (runOps demoConsts
      [DriverOp.startGyroscopeOp 0, DriverOp.startMoveOp demoEvt]
      demoState) = 2 ∧
    ¬(2 ≤ (1 : ℕ)) := by
  refine ⟨?_, ?_, ?_, by norm_num⟩ <;> with_unfolding_all rfl

/-- C3 (amended): `startAutorotate`, `startGyroscopeControl` and `animate`
each first stop every previously active driver, and starting a manual drag
stops the active autorotate and any running inertia or programmatic
animation — but not an active gyroscope control, so a drag may coexist with
the gyroscope (the drag then steers the gyroscope alpha offset rather than
the camera).  Counting the drivers with a gyroscope-time drag attributed to
the gyroscope, every state reachable from the constructed state has at most
one active driver, and never a gyroscope together with an animation. -/
theorem driver_exclusivity_reachable :
    ∀ (c : PSVConsts) (cfg : ViewerConfig) (ops : List DriverOp),
      amendedDriverCount (runOps c ops (initState cfg)) ≤ 1 ∧
      ¬((runOps c ops (initState cfg)).orientation_cb ∧
        (runOps c ops (initState cfg)).animation_promise) := by
  intro c cfg ops
  have key : ∀ (l : List DriverOp) (s : ViewerState),
      ExclusiveInv s → ExclusiveInv (runOps c l s) := by
    intro l
    induction l with
    | nil => exact fun s h => h
    | cons op rest ih =>
      exact fun s h => ih _ (applyOp_preserves_exclusive c op s h)
  exact key ops _
    (by constructor <;> simp [ExclusiveInv, amendedDriverCount, initState, b2n])

theorem jsBound_mono (lo hi x y : ℚ) (h : x ≤ y) :
    jsBound x lo hi ≤ jsBound y lo hi :=
  max_le_max le_rfl (min_le_min le_rfl h)

theorem jsBound_lower (lo hi x : ℚ) : lo ≤ jsBound x lo hi := le_max_left _ _

theorem jsBound_upper (lo hi x : ℚ) (h : lo ≤ hi) : jsBound x lo hi ≤ hi :=
  max_le h (min_le_left _ _)

/-- C8: the constructor's correction block recovers malformed configuration
without throwing: a `longitude_range` or `latitude_range` without exactly
two elements becomes null, an inverted `latitude_range` is reordered
ascending, inverted FOV bounds are swapped so that afterwards
`min_fov ≤ max_fov` with both in `[1, 179]`, and a truthy non-integer or
negative `cache_texture` is reset to the default; `configFix` is a total
function, so construction proceeds for every configuration. -/
theorem config_corrections (c : PSVConsts) (cfg : RawConfig) :
    (∀ l, cfg.longitude_range = some l → l.length ≠ 2 →
      (configFix c cfg).longitude_range = none) ∧
    (∀ l, cfg.latitude_range = some l → l.length ≠ 2 →
      (configFix c cfg).latitude_range = none) ∧
    (∀ a b, cfg.latitude_range = some [a, b] → a > b →
      (configFix c cfg).latitude_range = some [b, a]) ∧
    ((configFix c cfg).min_fov ≤ (configFix c cfg).max_fov ∧
      1 ≤ (configFix c cfg).min_fov ∧ (configFix c cfg).min_fov ≤ 179 ∧
      1 ≤ (configFix c cfg).max_fov ∧ (configFix c cfg).max_fov ≤ 179) ∧
    (cfg.cache_texture ≠ 0 →
      (isJsInteger cfg.cache_texture = false ∨ cfg.cache_texture < 0) →
      (configFix c cfg).cache_texture = c.CACHE_TEXTURE_DEFAULT) := by
  refine ⟨?_, ?_, ?_, ?_, ?_⟩
  · intro l hl hlen
    simp [configFix, hl, hlen]
  · intro l hl hlen
    rcases l with _ | ⟨a, _ | ⟨b, _ | ⟨d, t⟩⟩⟩ <;> simp_all [configFix]
  · intro a b hl hab
    simp [configFix, hl, hab]
  · have hord : (if cfg.max_fov < cfg.min_fov
        then (cfg.max_fov, cfg.min_fov)
        else (cfg.min_fov, cfg.max_fov)).1 ≤
        (if cfg.max_fov < cfg.min_fov
          then (cfg.max_fov, cfg.min_fov)
          else (cfg.min_fov, cfg.max_fov)).2 := by
      split_ifs with hsw
      · exact le_of_lt hsw
      · exact le_of_not_lt hsw
    refine ⟨jsBound_mono 1 179 _ _ hord, jsBound_lower _ _ _,
      jsBound_upper _ _ _ (by norm_num), jsBound_lower _ _ _,
      jsBound_upper _ _ _ (by norm_num)⟩
  · intro hnz hbad
    have hc : cfg.cache_texture ≠ 0 ∧
        ((!isJsInteger cfg.cache_texture) = true ∨ cfg.cache_texture < 0) := by
      refine ⟨hnz, ?_⟩
      rcases hbad with hb | hb
      · exact Or.inl (by simp [hb])
      · exact Or.inr hb
    simp only [configFix]
    rw [if_pos hc]

/-- A malformed configuration: one-element longitude range, inverted
latitude range, inverted FOV bounds, fractional cache size. -/
def badRaw : RawConfig :=
  { longitude_range := some [1]
    latitude_range := some [2, 1]
    tilt_up_max := none
    tilt_down_max := none
    min_fov := 90
    max_fov := 30
    default_fov := none
    cache_texture := 5 / 2 }

/-- Witness for C8 on `badRaw`: every hypothesis discharged concretely. -/
theorem config_corrections_witness :
    (badRaw.longitude_range = some [1] ∧ ([1] : List ℚ).length ≠ 2 ∧
      (configFix demoConsts badRaw).longitude_range = none) ∧
    (badRaw.latitude_range = some [2, 1] ∧ (2 : ℚ) > 1 ∧
      (configFix demoConsts badRaw).latitude_range = some [1, 2]) ∧
    ((configFix demoConsts badRaw).min_fov ≤
        (configFix demoConsts badRaw).max_fov ∧
      1 ≤ (configFix demoConsts badRaw).min_fov ∧
      (configFix demoConsts badRaw).max_fov ≤ 179) ∧
    (badRaw.cache_texture ≠ 0 ∧
      isJsInteger badRaw.cache_texture = false ∧
      (configFix demoConsts badRaw).cache_texture =
        demoConsts.CACHE_TEXTURE_DEFAULT) :=
  ⟨⟨rfl, by norm_num,
      (config_corrections demoConsts badRaw).1 [1] rfl (by norm_num)⟩,
    ⟨rfl, by norm_num,
      (config_corrections demoConsts badRaw).2.2.1 2 1 rfl (by norm_num)⟩,
    ⟨(config_corrections demoConsts badRaw).2.2.2.1.1,
      (config_corrections demoConsts badRaw).2.2.2.1.2.1,
      (config_corrections demoConsts badRaw).2.2.2.1.2.2.2.2⟩,
    ⟨by norm_num [badRaw], by with_unfolding_all rfl,
      (config_corrections demoConsts badRaw).2.2.2.2
        (by norm_num [badRaw]) (Or.inl (by with_unfolding_all rfl))⟩⟩

theorem jsRound_intCast (n : ℤ) : jsRound ((n : ℤ) : ℚ) = n := by
  rw [jsRound, jsFloor_eq, Int.floor_int_add]
  norm_num

theorem zoomLevelOf_intCast (n : ℤ) (h0 : 0 ≤ n) (h100 : n ≤ 100) :
    zoomLevelOf ((n : ℤ) : ℚ) = n := by
  rw [zoomLevelOf, jsRound_intCast, min_eq_right h100, max_eq_right h0]

/-- The rounding core of the constructor's default zoom: for ordered FOV
bounds and a default FOV `g` inside them, the applied level is
`100 - round(100 (g - m)/(M - m))`, and its derived vertical FOV differs
from `g` by at most half a level step, `(M - m)/200`. -/
theorem initialZoom_key (m M g : ℚ) (hlt : m < M) (hg1 : m ≤ g)
    (hg2 : g ≤ M) :
    zoomLevelOf (((jsRound ((g - m) / (M - m) * 100) -
        2 * (jsRound ((g - m) / (M - m) * 100) - 50) : ℤ)) : ℚ) =
      100 - jsRound ((g - m) / (M - m) * 100) ∧
    |vFovOf m M (100 - jsRound ((g - m) / (M - m) * 100)) - g| ≤
      (M - m) / 200 := by
  have hMm : (0 : ℚ) < M - m := by linarith
  set z : ℚ := (g - m) / (M - m) * 100 with hz
  have hz0 : 0 ≤ z := by
    apply mul_nonneg _ (by norm_num)
    exact div_nonneg (by linarith) (le_of_lt hMm)
  have hz100 : z ≤ 100 := by
    rw [hz]
    rw [div_mul_eq_mul_div, div_le_iff hMm]
    linarith
  set t : ℤ := jsRound z with ht
  have htle : (t : ℚ) ≤ z + 1 / 2 := jsRound_le z
  have htgt : z - 1 / 2 < (t : ℚ) := lt_jsRound z
  have ht0 : 0 ≤ t := by
    have h' : ((-1 : ℤ) : ℚ) < (t : ℚ) := by push_cast; linarith
    have h'' : (-1 : ℤ) < t := by exact_mod_cast h'
    omega
  have ht100 : t ≤ 100 := by
    have : (t : ℚ) < 101 := by linarith
    have h101 : t < 101 := by exact_mod_cast this
    omega
  have harith : (t - 2 * (t - 50) : ℤ) = 100 - t := by ring
  constructor
  · rw [harith, zoomLevelOf_intCast (100 - t) (by omega) (by omega)]
  · have habs : |(t : ℚ) - z| ≤ 1 / 2 := abs_le.mpr ⟨by linarith, by linarith⟩
    have hv : vFovOf m M (100 - t) - g = ((t : ℚ) - z) * ((M - m) / 100) := by
      rw [vFovOf, hz]
      push_cast
      field_simp
      ring
    rw [hv, abs_mul, abs_of_nonneg (by positivity : (0 : ℚ) ≤ (M - m) / 100)]
    calc |(t : ℚ) - z| * ((M - m) / 100) ≤ (1 / 2) * ((M - m) / 100) :=
          mul_le_mul_of_nonneg_right habs (by positivity)
      _ = (M - m) / 200 := by ring

/-- C9: after construction, when `default_fov` is not configured the
initial zoom level is the integer level whose derived vertical FOV is the
midpoint of `min_fov` and `max_fov` (level 50, exactly); when
`default_fov` is configured, it is clamped into `[min_fov, max_fov]` and
the initial zoom level's derived vertical FOV equals the clamped value up
to the rounding of the integer 0-100 level mapping (at most half a level
step, `(max_fov - min_fov)/200`). -/
theorem initial_zoom_matches_default_fov (c : PSVConsts) (cfg : RawConfig)
    (hlt : (configFix c cfg).min_fov < (configFix c cfg).max_fov) :
    (cfg.default_fov = none →
      initialZoomLevel (configFix c cfg) = 50 ∧
      vFovOf (configFix c cfg).min_fov (configFix c cfg).max_fov
          (initialZoomLevel (configFix c cfg)) =
        ((configFix c cfg).min_fov + (configFix c cfg).max_fov) / 2) ∧
    (∀ f, cfg.default_fov = some f →
      |vFovOf (configFix c cfg).min_fov (configFix c cfg).max_fov
          (initialZoomLevel (configFix c cfg)) -
        jsBound f (configFix c cfg).min_fov (configFix c cfg).max_fov| ≤
        ((configFix c cfg).max_fov - (configFix c cfg).min_fov) / 200) := by
  set m := (configFix c cfg).min_fov with hm
  set M := (configFix c cfg).max_fov with hM
  constructor
  · intro hnone
    have hdf : (configFix c cfg).default_fov = some (M / 2 + m / 2) := by
      simp [configFix, hnone, hm, hM]
    have hzl : initialZoomLevel (configFix c cfg) =
        zoomLevelOf (((jsRound ((M / 2 + m / 2 - m) / (M - m) * 100) -
          2 * (jsRound ((M / 2 + m / 2 - m) / (M - m) * 100) - 50) : ℤ)) :
            ℚ) := by
      rw [initialZoomLevel, initialZoomTemp, hdf]
      rfl
    have hmid : (M / 2 + m / 2 - m) / (M - m) * 100 = 50 := by
      have hne : M - m ≠ 0 := ne_of_gt (by linarith)
      field_simp
      ring
    have h50 : jsRound ((M / 2 + m / 2 - m) / (M - m) * 100) = 50 := by
      rw [hmid]
      have : (50 : ℚ) = ((50 : ℤ) : ℚ) := by norm_num
      rw [this, jsRound_intCast]
    have hkey := initialZoom_key m M (M / 2 + m / 2) hlt (by linarith)
      (by linarith)
    rw [hzl, hkey.1, h50]
    refine ⟨rfl, ?_⟩
    rw [vFovOf]
    push_cast
    field_simp
    ring
  · intro f hf
    have hdf : (configFix c cfg).default_fov = some (jsBound f m M) := by
      simp [configFix, hf, hm, hM]
    have hzl : initialZoomLevel (configFix c cfg) =
        zoomLevelOf (((jsRound ((jsBound f m M - m) / (M - m) * 100) -
          2 * (jsRound ((jsBound f m M - m) / (M - m) * 100) - 50) : ℤ)) :
            ℚ) := by
      rw [initialZoomLevel, initialZoomTemp, hdf]
      rfl
    have hkey := initialZoom_key m M (jsBound f m M) hlt
      (jsBound_lower m M f) (jsBound_upper m M f (le_of_lt hlt))
    rw [hzl, hkey.1]
    exact hkey.2

/-- A well-formed configuration with no `default_fov`. -/
def demoRaw : RawConfig :=
  { longitude_range := none
    latitude_range := none
    tilt_up_max := none
    tilt_down_max := none
    min_fov := 30
    max_fov := 90
    default_fov := none
    cache_texture := 0 }

/-- Witness for C9 on `demoRaw`: the hypothesis `min_fov < max_fov` is
discharged concretely. -/
theorem initial_zoom_matches_default_fov_witness :
    (configFix demoConsts demoRaw).min_fov <
      (configFix demoConsts demoRaw).max_fov ∧
    ((demoRaw.default_fov = none →
      initialZoomLevel (configFix demoConsts demoRaw) = 50 ∧
      vFovOf (configFix demoConsts demoRaw).min_fov
          (configFix demoConsts demoRaw).max_fov
          (initialZoomLevel (configFix demoConsts demoRaw)) =
        ((configFix demoConsts demoRaw).min_fov +
          (configFix demoConsts demoRaw).max_fov) / 2) ∧
    (∀ f, demoRaw.default_fov = some f →
      |vFovOf (configFix demoConsts demoRaw).min_fov
          (configFix demoConsts demoRaw).max_fov
          (initialZoomLevel (configFix demoConsts demoRaw)) -
        jsBound f (configFix demoConsts demoRaw).min_fov
          (configFix demoConsts demoRaw).max_fov| ≤
        ((configFix demoConsts demoRaw).max_fov -
          (configFix demoConsts demoRaw).min_fov) / 200)) :=
  have hlt : (configFix demoConsts demoRaw).min_fov <
      (configFix demoConsts demoRaw).max_fov := by
    have h1 : (configFix demoConsts demoRaw).min_fov = 30 := by
      with_unfolding_all rfl
    have h2 : (configFix demoConsts demoRaw).max_fov = 90 := by
      with_unfolding_all rfl
    rw [h1, h2]
    norm_num
  ⟨hlt, initial_zoom_matches_default_fov demoConsts demoRaw hlt⟩

/-- Invariant proof for the pruning loop of `_logMouseMove`: starting from
a timestamp-sorted history with index 0 and null `previous` (or from an
all-fresh history with the phase-B bookkeeping), and with fuel at least
`2·length + 1 - i`, the loop terminates within the fuel and every retained
sample is fresh (its timestamp within `INERTIA_WINDOW` of `now`). -/
theorem logLoop_all_fresh (c : PSVConsts) (now : ℚ)
    (hW : 0 ≤ c.INERTIA_WINDOW) :
    ∀ (fuel : ℕ) (h : List MouseSample) (i : ℕ) (prev : Option ℚ),
      List.Pairwise (fun a b : MouseSample => a.1 ≤ b.1) h →
      i ≤ h.length →
      ((i = 0 ∧ prev = none) ∨
        ((∀ e ∈ h, now - c.INERTIA_WINDOW ≤ e.1) ∧
          (i = 0 → ∃ e, h.head? = some e ∧ prev = some e.1))) →
      2 * h.length + 1 - i ≤ fuel →
      ∀ e ∈ logLoop c now fuel h i prev, now - c.INERTIA_WINDOW ≤ e.1 := by
  intro fuel
  induction fuel with
  | zero =>
    intro h i prev hsort hile hinv hfuel
    omega
  | succ fuel ih =>
    intro h i prev hsort hile hinv hfuel
    simp only [logLoop]
    split_ifs with hlen hstale hpause
    · -- stale branch: `splice(i, 1)`
      have hlen' : (h.eraseIdx i).length = h.length - 1 :=
        List.length_eraseIdx_of_lt hlen
      apply ih (h.eraseIdx i) i prev
        (hsort.sublist (List.eraseIdx_sublist h i))
        (by omega)
      · rcases hinv with ⟨hi0, hprev⟩ | ⟨hfresh, hhead⟩
        · exact Or.inl ⟨hi0, hprev⟩
        · -- phase B: the front is fresh, so the stale test cannot fire at 0
          have hi : i ≠ 0 := by
            intro h0
            subst h0
            cases h with
            | nil => simp at hlen
            | cons e t =>
              have : e.1 < now - c.INERTIA_WINDOW := by
                simpa [logCondStale, sampleField] using hstale
              have := hfresh e (List.mem_cons_self e t)
              linarith
          refine Or.inr ⟨?_, fun h0 => absurd h0 hi⟩
          intro e he
          exact hfresh e ((List.eraseIdx_sublist h i).mem he)
      · omega
    · -- pause branch: `splice(0, i)`
      have h10 : (0 : ℚ) ≤ c.INERTIA_WINDOW / 10 := by positivity
      have hi : i ≠ 0 := by
        intro h0
        subst h0
        rcases hinv with ⟨-, hpn⟩ | ⟨-, hhead⟩
        · rw [hpn] at hpause
          simp [logCondPause] at hpause
        · obtain ⟨e, hh, hp⟩ := hhead rfl
          have hq : sampleField h 0 = some e.1 := by
            cases h with
            | nil => simp at hh
            | cons e' t =>
              obtain rfl : e' = e := by simpa using hh
              rfl
          rw [hp, hq] at hpause
          simp only [logCondPause, Bool.and_eq_true, decide_eq_true_eq]
            at hpause
          linarith [hpause.2]
      have hdlen : (h.drop i).length = h.length - i := List.length_drop i h
      have hdpos : 0 < (h.drop i).length := by omega
      apply ih (h.drop i) 0 (sampleField (h.drop i) 0)
        (hsort.sublist (List.drop_sublist i h))
        (by omega)
      · rcases hinv with ⟨hi0, -⟩ | ⟨hfresh, -⟩
        · exact absurd hi0 hi
        · refine Or.inr ⟨?_, ?_⟩
          · intro e he
            exact hfresh e ((List.drop_sublist i h).mem he)
          · intro _
            cases hd : h.drop i with
            | nil => rw [hd] at hdpos; simp at hdpos
            | cons e' t' => exact ⟨e', by simp, by simp [sampleField]⟩
      · omega
    · -- advance branch: `i++`
      apply ih h (i + 1) (sampleField h (i + 1)) hsort (by omega)
      · rcases hinv with ⟨hi0, -⟩ | ⟨hfresh, -⟩
        · subst hi0
          cases h with
          | nil => simp at hlen
          | cons e t =>
            have hef : now - c.INERTIA_WINDOW ≤ e.1 := by
              by_contra hcon
              apply hstale
              simp only [logCondStale, sampleField]
              exact decide_eq_true (by linarith)
            refine Or.inr ⟨?_, fun h0 => absurd h0 (Nat.succ_ne_zero 0)⟩
            intro e' he'
            rcases List.mem_cons.mp he' with rfl | ht
            · exact hef
            · have := (List.pairwise_cons.mp hsort).1 e' ht
              linarith
        · exact Or.inr ⟨hfresh, fun h0 => absurd h0 (Nat.succ_ne_zero i)⟩
      · omega
    · -- loop exit: `i ≥ length`
      rcases hinv with ⟨hi0, -⟩ | ⟨hfresh, -⟩
      · subst hi0
        have : h = [] := List.eq_nil_of_length_eq_zero (by omega)
        subst this
        intro e he
        simp at he
      · exact hfresh

/-- C7: after every call to `_logMouseMove` on a timestamp-sorted history
whose samples all predate the current clock, every retained sample's
timestamp lies within the trailing `INERTIA_WINDOW` of the current time;
and `_startMove` discards the previous history entirely, starting the drag
from an emptied history (followed by the initial log of the event). -/
theorem mouse_history_freshness (c : PSVConsts) (now x y : ℚ)
    (h : List MouseSample) (hW : 0 ≤ c.INERTIA_WINDOW)
    (hsort : List.Pairwise (fun a b : MouseSample => a.1 ≤ b.1) h)
    (hpast : ∀ e ∈ h, e.1 ≤ now) :
    (∀ e ∈ logMouseMove c now x y h, now - c.INERTIA_WINDOW ≤ e.1) ∧
    (∀ (s : ViewerState) (evt : MouseEvt),
      (startMove c s evt).mouse_history =
        logMouseMove c evt.now evt.clientX evt.clientY []) := by
  constructor
  · unfold logMouseMove
    apply logLoop_all_fresh c now hW
    · apply List.pairwise_append.mpr
      refine ⟨hsort, List.pairwise_singleton _ _, ?_⟩
      intro a ha b hb
      have : b = (now, x, y) := by simpa using hb
      subst this
      exact hpast a ha
    · exact Nat.zero_le _
    · exact Or.inl ⟨rfl, rfl⟩
    · omega
  · intro s evt
    rfl

/-- Witness for C7 on a concrete history: one stale and one fresh sample,
clock at 1000, window 300. -/
theorem mouse_history_freshness_witness :
    (0 : ℚ) ≤ demoConsts.INERTIA_WINDOW ∧
    List.Pairwise (fun a b : MouseSample => a.1 ≤ b.1)
      [((600 : ℚ), (5 : ℚ), (5 : ℚ)), (900, 6, 6)] ∧
    (∀ e ∈ [((600 : ℚ), (5 : ℚ), (5 : ℚ)), (900, 6, 6)], e.1 ≤ (1000 : ℚ)) ∧
    ((∀ e ∈ logMouseMove demoConsts 1000 7 8
        [((600 : ℚ), (5 : ℚ), (5 : ℚ)), (900, 6, 6)],
        (1000 : ℚ) - demoConsts.INERTIA_WINDOW ≤ e.1) ∧
      (∀ (s : ViewerState) (evt : MouseEvt),
        (startMove demoConsts s evt).mouse_history =
          logMouseMove demoConsts evt.now evt.clientX evt.clientY [])) :=
  have h1 : (0 : ℚ) ≤ demoConsts.INERTIA_WINDOW := by
    with_unfolding_all decide
  have h2 : List.Pairwise (fun a b : MouseSample => a.1 ≤ b.1)
      [((600 : ℚ), (5 : ℚ), (5 : ℚ)), (900, 6, 6)] := by
    refine List.Pairwise.cons ?_ (List.pairwise_singleton _ _)
    intro b hb
    have : b = ((900 : ℚ), (6 : ℚ), (6 : ℚ)) := by simpa using hb
    subst this
    norm_num
  have h3 : ∀ e ∈ [((600 : ℚ), (5 : ℚ), (5 : ℚ)), (900, 6, 6)],
      e.1 ≤ (1000 : ℚ) := by
    intro e he
    rcases List.mem_cons.mp he with rfl | he'
    · norm_num
    · have : e = ((900 : ℚ), (6 : ℚ), (6 : ℚ)) := by simpa using he'
      subst this
      norm_num
  ⟨h1, h2, h3, mouse_history_freshness demoConsts 1000 7 8 _ h1 h2 h3⟩

/-- The transposed access `mouse_history[0][i]` makes the loop over-prune:
here even the freshly pushed sample `(1000, 7, 8)` is deleted (the front's
x coordinate 6 passes the staleness test at index 1), yet every retained
sample is within the window — the claimed property survives the index
transposition. -/
example :
    logMouseMove demoConsts 1000 7 8 [((600 : ℚ), (5 : ℚ), (5 : ℚ)), (900, 6, 6)] =
      [(900, 6, 6)] := by
  with_unfolding_all rfl

end PanoSphere
